import Mathlib

/-!
Shallow embedding of `src/upflame_ago/agent/executor.py` (class `ToolExecutor`):
a command dispatch and sandboxed execution gateway.  Pure data (strings,
parameter maps, the result envelope) is translated directly; the two genuinely
effectful primitives — `exec` of arbitrary Python code and `subprocess.run` —
are parametrised by behavioural oracles (`PyBehavior`, `ProcBehavior`) that
describe what the evaluated code / spawned process would do, while the
handler's own control flow (gate check, capture, try/except/finally, timeout,
result assembly) is translated line by line from the source.  Side effects are
recorded in an explicit `Effect` trace; the process-wide `sys.stdout` binding
is threaded as explicit state (`StreamRef`).
-/

namespace UAC

/-- The process environment, as seen by `os.getenv`: a partial map from
variable names to values. -/
abbrev Env := String → Option String

/-- `os.getenv(name, dflt)`: the variable's value, or the default when the
variable is absent. -/
def getenv (env : Env) (name : String) (dflt : String) : String :=
  (env name).getD dflt

/-- The parameter mapping passed to a handler (`params: Dict[str, Any]`);
the handlers only ever read string-valued keys, so values are strings. -/
abbrev Params := String → Option String

/-- `params.get(key, dflt)`. -/
def paramsGetD (params : Params) (key dflt : String) : String :=
  (params key).getD dflt

/-- The name of the safety-gate environment variable read by both gated
handlers. -/
def allowUnsafeExecution : String := "ALLOW_UNSAFE_EXECUTION"

/-- `str.lower()`, modelled character-wise (ASCII case folding; the only
literal it is ever compared against, "true", is ASCII). -/
def strLower (s : String) : String := String.mk (s.data.map Char.toLower)

/-- The gate check both gated handlers perform:
`os.getenv("ALLOW_UNSAFE_EXECUTION", "false").lower() == "true"`. -/
def gateOpen (env : Env) : Bool :=
  strLower (getenv env allowUnsafeExecution "false") == "true"

/-- The result envelope returned by `ToolExecutor.execute`:
`{"status": "success", "result": r}` or `{"status": "error", "message": m}`. -/
inductive ExecResult where
  | success (result : String)
  | error (message : String)
  deriving DecidableEq, Repr

/-- What the process-wide `sys.stdout` binding can point at: the interpreter's
startup stream `sys.__stdout__`, the fresh in-memory buffer created by
`execute_python`, or some other stream object installed by the host. -/
inductive StreamRef where
  | dunder
  | buffer
  | other (id : Nat)
  deriving DecidableEq, Repr

/-- Observable side effects of a handler invocation: `exec` of a code string
with the given fresh global namespace, spawning a child process with the given
argument vector and shell flag, killing a child, and a child terminating. -/
inductive Effect where
  | execCode (code : String) (globals : List (String × String))
  | spawn (argv : List String) (shell : Bool)
  | kill (argv : List String)
  | exit (argv : List String)
  deriving DecidableEq, Repr

/-- Behaviour of `exec(code, fresh_globals)` for one code string: the text the
program writes to the current standard output during evaluation, and `some m`
when evaluation raises an exception whose `str` is `m` (or `none` on normal
return). -/
structure PyBehavior where
  written : String
  exn : Option String
  deriving DecidableEq, Repr

/-- Behaviour of the external world for one argument vector: either process
creation fails with an exception whose `str` is the message, or a process runs
for the given wall-clock duration and produces the given stdout/stderr text. -/
inductive ProcBehavior where
  | spawnFail (msg : String)
  | runs (duration : Nat) (stdout stderr : String)
  deriving DecidableEq, Repr

/-- Behavioural oracles for the two effectful primitives the handlers use. -/
structure Oracles where
  pyEval : String → PyBehavior
  proc : List String → ProcBehavior

/-- The `__name__` key of the fresh globals passed to `exec`. -/
def dunderName : String := "__name__"

/-- The `__main__` value bound to `__name__` in the fresh globals. -/
def dunderMain : String := "__main__"

/-- The disabled-gate message returned by `execute_python`. -/
def pythonDisabledMessage : String :=
  "Error: Python execution is disabled. Set ALLOW_UNSAFE_EXECUTION=true to enable."

/-- The disabled-gate message returned by `execute_shell`. -/
def shellDisabledMessage : String :=
  "Error: Shell execution is disabled. Set ALLOW_UNSAFE_EXECUTION=true to enable."

/-- The characters `shlex` treats as token-separating whitespace. -/
def isShlexWhitespace (c : Char) : Bool :=
  c = ' ' || c = '\t' || c = '\r' || c = '\n'

/-- After a backslash, the state the lexer returns to: inside a bare word, or
inside a double-quoted section. -/
inductive EscBack where
  | word
  | dquote
  deriving DecidableEq, Repr

/-- State of the `shlex` lexer with `posix=True`, `whitespace_split=True` and
comments disabled — exactly the configuration `shlex.split` uses: between
tokens, inside a bare word, inside single quotes, inside double quotes, or
just after a backslash. -/
inductive ShState where
  | between
  | word
  | squote
  | dquote
  | esc (back : EscBack)
  deriving DecidableEq, Repr

/-- One pass of `shlex.split`'s token loop over the remaining characters.
`cur` is the token accumulated so far, `quoted` records whether the current
token saw a quote (a posix-mode empty quoted token is still emitted), and
`acc` holds the completed tokens in reverse.  Unbalanced quoting raises
`ValueError`, modelled as the `Except.error` branch with the exception's
message text. -/
def shlexLoop : List Char → ShState → String → Bool → List String →
    Except String (List String)
  | [], .between, _, _, acc => .ok acc.reverse
  | [], .word, cur, quoted, acc =>
      .ok (if cur != "" || quoted then (cur :: acc).reverse else acc.reverse)
  | [], .squote, _, _, _ => .error "No closing quotation"
  | [], .dquote, _, _, _ => .error "No closing quotation"
  | [], .esc _, _, _, _ => .error "No escaped character"
  | c :: rest, .between, cur, quoted, acc =>
      if isShlexWhitespace c then shlexLoop rest .between cur quoted acc
      else if c = '\\' then shlexLoop rest (.esc .word) cur quoted acc
      else if c = '\'' then shlexLoop rest .squote cur quoted acc
      else if c = '"' then shlexLoop rest .dquote cur quoted acc
      else shlexLoop rest .word (cur.push c) quoted acc
  | c :: rest, .word, cur, quoted, acc =>
      if isShlexWhitespace c then
        shlexLoop rest .between "" false
          (if cur != "" || quoted then cur :: acc else acc)
      else if c = '\\' then shlexLoop rest (.esc .word) cur quoted acc
      else if c = '\'' then shlexLoop rest .squote cur quoted acc
      else if c = '"' then shlexLoop rest .dquote cur quoted acc
      else shlexLoop rest .word (cur.push c) quoted acc
  | c :: rest, .squote, cur, _, acc =>
      if c = '\'' then shlexLoop rest .word cur true acc
      else shlexLoop rest .squote (cur.push c) true acc
  | c :: rest, .dquote, cur, _, acc =>
      if c = '"' then shlexLoop rest .word cur true acc
      else if c = '\\' then shlexLoop rest (.esc .dquote) cur true acc
      else shlexLoop rest .dquote (cur.push c) true acc
  | c :: rest, .esc back, cur, quoted, acc =>
      match back with
      | .word => shlexLoop rest .word (cur.push c) quoted acc
      | .dquote =>
          if c = '\\' || c = '"' then shlexLoop rest .dquote (cur.push c) quoted acc
          else shlexLoop rest .dquote ((cur.push '\\').push c) quoted acc

/-- `shlex.split(s)`: POSIX shell-word splitting with quoting and escaping
honoured and no shell-metacharacter interpretation. -/
def shlexSplit (s : String) : Except String (List String) :=
  shlexLoop s.data .between "" false []

/-- The `str` of the `subprocess.TimeoutExpired` exception raised when the
child exceeds the timeout (the exact rendering of the command is immaterial to
the claims; what matters is that this text is the fault's description). -/
def timeoutMessage (argv : List String) (t : Nat) : String :=
  "Command " ++ toString argv ++ " timed out after " ++ toString t ++ " seconds"

/-- The `str` of the `IndexError` that `subprocess.Popen` raises, before any
child exists, when given an empty argument vector. -/
def emptyArgvMessage : String := "list index out of range"

/-- `subprocess.run(argv, shell=False, capture_output=True, text=True,
timeout=t)`, modelled from the stdlib's documented contract: an empty argument
vector faults before any process exists; otherwise the child is spawned and,
if it outruns the timeout, it is killed and `TimeoutExpired` is raised, else
its captured stdout/stderr are returned.  The effect trace records the spawn
(with the shell flag), any kill, and the child's termination. -/
def subprocessRun (proc : List String → ProcBehavior) (argv : List String)
    (shell : Bool) (t : Nat) : Except String (String × String) × List Effect :=
  if argv.isEmpty then (.error emptyArgvMessage, [])
  else
    match proc argv with
    | .spawnFail m => (.error m, [])
    | .runs d out err =>
        if d ≤ t then (.ok (out, err), [.spawn argv shell, .exit argv])
        else (.error (timeoutMessage argv t), [.spawn argv shell, .kill argv, .exit argv])

/-- `ToolExecutor.execute_python`: gate check first; then the `code` parameter
(default empty) is evaluated by `exec` in a fresh namespace containing only
the binding `__name__ = "__main__"`, with `sys.stdout` redirected to a fresh
buffer for the duration; on normal return the buffer's contents are the
result, on an evaluation exception `str(e)` is the result, and the `finally`
clause sets `sys.stdout` to `sys.__stdout__` on both exit paths.  Returns
(result string, final `sys.stdout`, effect trace). -/
def execute_python (pyEval : String → PyBehavior) (env : Env) (params : Params)
    (s0 : StreamRef) : String × StreamRef × List Effect :=
  if gateOpen env = false then
    (pythonDisabledMessage, s0, [])
  else
    let code := paramsGetD params "code" ""
    let b := pyEval code
    let bufferContents := b.written
    match b.exn with
    | none => (bufferContents, .dunder, [.execCode code [(dunderName, dunderMain)]])
    | some m => (m, .dunder, [.execCode code [(dunderName, dunderMain)]])

/-- `ToolExecutor.execute_shell`: gate check first; then the `command`
parameter (default empty) is split by `shlex.split` and run via
`subprocess.run(args, shell=False, ..., timeout=10)`; the handler returns
`stdout + stderr` on completion and `str(e)` for any exception raised inside
the `try` block (splitting error, spawn fault, or timeout).  Returns
(result string, effect trace). -/
def execute_shell (proc : List String → ProcBehavior) (env : Env)
    (params : Params) : String × List Effect :=
  if gateOpen env = false then
    (shellDisabledMessage, [])
  else
    let command := paramsGetD params "command" ""
    match shlexSplit command with
    | .error e => (e, [])
    | .ok args =>
        match subprocessRun proc args false 10 with
        | (.ok (out, err), tr) => (out ++ err, tr)
        | (.error m, tr) => (m, tr)

/-- `ToolExecutor.execute_search`: a pure templated placeholder. -/
def execute_search (params : Params) : String :=
  "Results for " ++ paramsGetD params "query" "" ++ ": [Mock Data]"

/-- A handler outcome: `.ok r` for a normal string return, `.error m` for a
raised fault whose `str` is `m`. -/
abbrev HandlerOutcome := Except String String

/-- A registered handler: parameters and current `sys.stdout` in, outcome,
final `sys.stdout` and effect trace out. -/
abbrev Handler := Params → StreamRef → HandlerOutcome × StreamRef × List Effect

/-- The `python` entry of `self.tools` (never raises: it catches internally). -/
def pythonHandler (pyEval : String → PyBehavior) (env : Env) : Handler :=
  fun params s0 =>
    match execute_python pyEval env params s0 with
    | (out, s1, tr) => (.ok out, s1, tr)

/-- The `shell` entry of `self.tools` (never raises: it catches internally). -/
def shellHandler (proc : List String → ProcBehavior) (env : Env) : Handler :=
  fun params s0 =>
    match execute_shell proc env params with
    | (out, tr) => (.ok out, s0, tr)

/-- The `search` entry of `self.tools`. -/
def searchHandler : Handler :=
  fun params s0 => (.ok (execute_search params), s0, [])

/-- The registry `self.tools` wired at construction:
`{"python": execute_python, "shell": execute_shell, "search": execute_search}`. -/
def tools (o : Oracles) (env : Env) (name : String) : Option Handler :=
  if name = "python" then some (pythonHandler o.pyEval env)
  else if name = "shell" then some (shellHandler o.proc env)
  else if name = "search" then some searchHandler
  else none

/-- The message `execute` returns for an unknown capability name. -/
def notFoundMessage (name : String) : String :=
  "Tool " ++ name ++ " not found"

/-- The body of `ToolExecutor.execute`, generic in the registry contents: the
membership test, then the `try`/`except` fault boundary around the handler
call — a normal return becomes the success envelope, a raised fault becomes
the error envelope carrying `str(e)`. -/
def dispatch (reg : String → Option Handler) (name : String) (params : Params)
    (s0 : StreamRef) : ExecResult × StreamRef × List Effect :=
  match reg name with
  | none => (.error (notFoundMessage name), s0, [])
  | some h =>
      match h params s0 with
      | (.ok r, s1, tr) => (.success r, s1, tr)
      | (.error m, s1, tr) => (.error m, s1, tr)

/-- `ToolExecutor.execute` with the constructed registry. -/
def execute (o : Oracles) (env : Env) (name : String) (params : Params)
    (s0 : StreamRef) : ExecResult × StreamRef × List Effect :=
  dispatch (tools o env) name params s0

/-! Concrete fixtures used by witnesses and counterexamples. -/

/-- An environment with the gate variable absent. -/
def envOff : Env := fun _ => none

/-- An environment enabling the gate with the lowercase literal. -/
def envOn : Env := fun n => if n = "ALLOW_UNSAFE_EXECUTION" then some "true" else none

/-- An environment enabling the gate with an uppercase value, exercising the
case-insensitive comparison. -/
def envOnUpper : Env := fun n => if n = "ALLOW_UNSAFE_EXECUTION" then some "TRUE" else none

/-- An empty parameter mapping. -/
def noParams : Params := fun _ => none

/-- Oracles under which evaluated code writes nothing and every process
finishes immediately with empty output. -/
def quietOracles : Oracles := ⟨fun _ => ⟨"", none⟩, fun _ => .runs 0 "" ""⟩

/-! Helper lemmas shared by the claim theorems. -/

/-- Dispatching to `python` wraps the handler's string in the success
envelope and propagates its stdout state and trace. -/
theorem execute_python_eq (o : Oracles) (env : Env) (params : Params) (s0 : StreamRef) :
    execute o env "python" params s0 =
      (.success (execute_python o.pyEval env params s0).1,
       (execute_python o.pyEval env params s0).2.1,
       (execute_python o.pyEval env params s0).2.2) := by
  rcases hp : execute_python o.pyEval env params s0 with ⟨out, s1, tr⟩
  simp [execute, dispatch, tools, pythonHandler, hp]

/-- Dispatching to `shell` wraps the handler's string in the success
envelope, leaves stdout untouched and propagates the trace. -/
theorem execute_shell_eq (o : Oracles) (env : Env) (params : Params) (s0 : StreamRef) :
    execute o env "shell" params s0 =
      (.success (execute_shell o.proc env params).1, s0,
       (execute_shell o.proc env params).2) := by
  rcases hs : execute_shell o.proc env params with ⟨out, tr⟩
  simp [execute, dispatch, tools, shellHandler, hs]

/-- With the gate open, a nonempty argument vector and a process that runs
for `d` time units, `execute_shell` either returns the captured output (in
time) or the timeout fault text (overrun, with the child killed). -/
theorem execute_shell_runs (proc : List String → ProcBehavior) (env : Env)
    (params : Params) (args : List String) (d : Nat) (out err : String)
    (hg : gateOpen env = true)
    (hsp : shlexSplit (paramsGetD params "command" "") = .ok args)
    (hne : args ≠ []) (hp : proc args = .runs d out err) :
    execute_shell proc env params =
      if d ≤ 10 then (out ++ err, [.spawn args false, .exit args])
      else (timeoutMessage args 10, [.spawn args false, .kill args, .exit args]) := by
  have hE : args.isEmpty = false := by
    cases args with
    | nil => exact absurd rfl hne
    | cons a l => rfl
  simp only [execute_shell, subprocessRun, hg, hsp, hp, hE]
  by_cases hd : d ≤ 10 <;> simp [hd]

/-- C1: when the `ALLOW_UNSAFE_EXECUTION` flag, lowercased, is not `"true"`
(including when absent), both gated handlers return their disabled message as
the output of a success envelope, with no effect recorded (no code evaluated,
no process spawned) and the stdout binding untouched; and because the flag is
an argument of every invocation rather than executor state, a later call
whose environment enables the gate does run the body (the re-read is per
invocation, not cached). -/
theorem c1_gate_disabled_no_side_effects (o : Oracles) (env : Env) (params : Params)
    (s0 : StreamRef) (hd : gateOpen env = false) :
    execute o env "python" params s0 = (.success pythonDisabledMessage, s0, []) ∧
    execute o env "shell" params s0 = (.success shellDisabledMessage, s0, []) ∧
    (∀ env2, gateOpen env2 = true →
      (execute o env2 "python" params s0).2.2 =
        [.execCode (paramsGetD params "code" "") [(dunderName, dunderMain)]]) := by
  refine ⟨?_, ?_, fun env2 h2 => ?_⟩
  · simp [execute, dispatch, tools, pythonHandler, execute_python, hd]
  · simp [execute, dispatch, tools, shellHandler, execute_shell, hd]
  · rw [execute_python_eq]
    cases hb : (o.pyEval (paramsGetD params "code" "")).exn <;>
      simp [execute_python, h2, hb]

/-- C1 witness: with the flag absent both handlers return their disabled
message and an empty trace, and with the flag set to `"TRUE"` the python
handler's body runs (its `exec` effect is recorded). -/
theorem c1_witness :
    execute quietOracles envOff "python" noParams .dunder =
      (.success pythonDisabledMessage, .dunder, []) ∧
    execute quietOracles envOff "shell" noParams .dunder =
      (.success shellDisabledMessage, .dunder, []) ∧
    (execute quietOracles envOnUpper "python" noParams .dunder).2.2 =
      [.execCode "" [(dunderName, dunderMain)]] := by
  have h := c1_gate_disabled_no_side_effects quietOracles envOff noParams .dunder (by decide)
  exact ⟨h.1, h.2.1, h.2.2 envOnUpper (by decide)⟩

/-- C2: the dispatcher's fault boundary — for any registry contents, any
capability name and any parameters, if the resolved handler returns normally
the dispatcher produces the success envelope with the returned string, and if
the handler raises any fault the dispatcher produces the error envelope
carrying the fault's textual description (dispatch itself is a total
function, so no fault escapes it). -/
theorem c2_dispatch_fault_boundary (reg : String → Option Handler) (name : String)
    (params : Params) (s0 : StreamRef) (h : Handler) (hl : reg name = some h) :
    (∀ r s1 tr, h params s0 = (.ok r, s1, tr) →
      dispatch reg name params s0 = (.success r, s1, tr)) ∧
    (∀ m s1 tr, h params s0 = (.error m, s1, tr) →
      dispatch reg name params s0 = (.error m, s1, tr)) := by
  constructor
  · intro r s1 tr hh
    simp [dispatch, hl, hh]
  · intro m s1 tr hh
    simp [dispatch, hl, hh]

/-- A handler that raises a fault whose textual description is `"boom"`. -/
def raisingHandler : Handler := fun _ s0 => (.error "boom", s0, [])

/-- A registry mapping every name to the raising handler. -/
def raisingReg : String → Option Handler := fun _ => some raisingHandler

/-- C2 witness: a raised fault becomes the error envelope with its text. -/
theorem c2_witness :
    dispatch raisingReg "python" noParams .dunder = (.error "boom", .dunder, []) :=
  (c2_dispatch_fault_boundary raisingReg "python" noParams .dunder raisingHandler rfl).2
    "boom" .dunder [] rfl

/-- C3: for every capability name outside the fixed registry set
`{python, shell, search}`, dispatch returns the error envelope whose message
is of the form `Tool {name} not found` — hence contains the name — with no
effect, and never raises (execute is a total function). -/
theorem c3_unknown_tool (o : Oracles) (env : Env) (name : String) (params : Params)
    (s0 : StreamRef) (hp : name ≠ "python") (hs : name ≠ "shell")
    (hq : name ≠ "search") :
    execute o env name params s0 = (.error (notFoundMessage name), s0, []) ∧
    (∃ pre suf, notFoundMessage name = pre ++ name ++ suf) := by
  refine ⟨?_, "Tool ", " not found", rfl⟩
  simp [execute, dispatch, tools, hp, hs, hq]

/-- C3 witness: an unknown capability name yields the not-found error
envelope containing the name. -/
theorem c3_witness :
    execute quietOracles envOn "frobnicate" noParams .dunder =
      (.error (notFoundMessage "frobnicate"), .dunder, []) ∧
    (∃ pre suf, notFoundMessage "frobnicate" = pre ++ "frobnicate" ++ suf) :=
  c3_unknown_tool quietOracles envOn "frobnicate" noParams .dunder
    (by decide) (by decide) (by decide)

/-- Every spawn recorded by `execute_shell` carries `shell = false` and the
argument vector produced by `shlex.split` on the `command` parameter. -/
theorem execute_shell_spawn_inv (proc : List String → ProcBehavior) (env : Env)
    (params : Params) (argv : List String) (sh : Bool)
    (hmem : Effect.spawn argv sh ∈ (execute_shell proc env params).2) :
    sh = false ∧ shlexSplit (paramsGetD params "command" "") = .ok argv := by
  simp only [execute_shell, subprocessRun] at hmem
  by_cases hg : gateOpen env = false
  · simp [hg] at hmem
  · rw [Bool.not_eq_false] at hg
    simp only [hg, Bool.true_eq_false, if_false] at hmem
    rcases hsp : shlexSplit (paramsGetD params "command" "") with e | args <;>
      simp only [hsp] at hmem
    · simp at hmem
    · by_cases hE : args.isEmpty
      · simp [hE] at hmem
      · rw [Bool.not_eq_true] at hE
        simp only [hE, Bool.false_eq_true, if_false] at hmem
        cases hp : proc args with
        | spawnFail m => simp [hp] at hmem
        | runs d out err =>
            simp only [hp] at hmem
            by_cases hd : d ≤ 10
            · simp only [hd, if_true] at hmem
              simp at hmem
              exact ⟨hmem.2, by rw [hmem.1]⟩
            · simp only [hd, if_false] at hmem
              simp at hmem
              exact ⟨hmem.2, by rw [hmem.1]⟩

/-- C4: with the gate open, every child process the external-command handler
spawns is spawned with no shell interpreter (`shell = false`) and with
exactly the argument vector obtained by POSIX shell-word splitting of the
`command` parameter (quoting and escaping honoured, no metacharacter
interpretation); concretely, the metacharacter string `"; rm -rf /"` splits
into the literal argument tokens `[";", "rm", "-rf", "/"]`. -/
theorem c4_argv_execution_no_shell (o : Oracles) (env : Env) (params : Params)
    (s0 : StreamRef) (_hg : gateOpen env = true) :
    (∀ argv sh, Effect.spawn argv sh ∈ (execute o env "shell" params s0).2.2 →
      sh = false ∧ shlexSplit (paramsGetD params "command" "") = .ok argv) ∧
    shlexSplit "; rm -rf /" = .ok [";", "rm", "-rf", "/"] := by
  constructor
  · intro argv sh hmem
    rw [execute_shell_eq] at hmem
    exact execute_shell_spawn_inv o.proc env params argv sh hmem
  · rfl

/-- C4 witness: for the command `"; rm -rf /"` and a process that completes
at once, the single recorded spawn uses `shell = false` and the literally
split vector. -/
theorem c4_witness :
    ((Effect.spawn [";", "rm", "-rf", "/"] false ∈
        (execute quietOracles envOn "shell"
          (fun k => if k = "command" then some "; rm -rf /" else none) .dunder).2.2) →
      (false = false ∧ shlexSplit "; rm -rf /" = .ok [";", "rm", "-rf", "/"])) ∧
    shlexSplit "; rm -rf /" = .ok [";", "rm", "-rf", "/"] :=
  have h := c4_argv_execution_no_shell quietOracles envOn
    (fun k => if k = "command" then some "; rm -rf /" else none) .dunder (by decide)
  ⟨fun hm => h.1 [";", "rm", "-rf", "/"] false hm, h.2⟩

/-- C5 counterexample: with the gate open and the process-wide stdout bound
to a stream other than `sys.__stdout__` when the handler begins, the handler
exits with stdout bound to `sys.__stdout__` — not to the stream that was in
place at entry — because the `finally` clause writes `sys.__stdout__`
unconditionally. -/
theorem c5_counterexample :
    (execute_python (fun _ => ⟨"", none⟩) envOn noParams (.other 0)).2.1 ≠ .other 0 := by
  decide

/-- C5 (amended): on every exit path of the code-evaluation handler — normal
return and evaluation fault alike — the process-wide stdout is set to the
interpreter's startup stream `sys.__stdout__`; this coincides with the stream
in place when the handler began its capture exactly when no prior redirection
was active at entry. -/
theorem c5_stdout_restored_to_startup_stream (pyEval : String → PyBehavior)
    (env : Env) (params : Params) (s0 : StreamRef) (hg : gateOpen env = true) :
    (execute_python pyEval env params s0).2.1 = .dunder ∧
    (s0 = .dunder → (execute_python pyEval env params s0).2.1 = s0) := by
  have h1 : (execute_python pyEval env params s0).2.1 = .dunder := by
    cases hb : (pyEval (paramsGetD params "code" "")).exn <;>
      simp [execute_python, hg, hb]
  exact ⟨h1, fun hs => hs ▸ h1⟩

/-- C5 witness: entered with stdout at `sys.__stdout__`, the handler also
exits with stdout at `sys.__stdout__`. -/
theorem c5_witness :
    (execute_python (fun _ => ⟨"x", some "err"⟩) envOn noParams .dunder).2.1 = .dunder :=
  (c5_stdout_restored_to_startup_stream (fun _ => ⟨"x", some "err"⟩) envOn noParams
    .dunder (by decide)).1

/-- C6: with the gate open, the code-evaluation handler evaluates the `code`
parameter (default empty) via `exec` in a fresh namespace containing only the
`__name__ = "__main__"` marker, and when evaluation returns normally the
dispatch result is the success envelope carrying exactly the text the program
wrote to standard output during evaluation. -/
theorem c6_python_eval_capture (o : Oracles) (env : Env) (params : Params)
    (s0 : StreamRef) (w : String) (hg : gateOpen env = true)
    (he : o.pyEval (paramsGetD params "code" "") = ⟨w, none⟩) :
    execute o env "python" params s0 =
      (.success w, .dunder,
       [.execCode (paramsGetD params "code" "") [(dunderName, dunderMain)]]) := by
  rw [execute_python_eq]
  simp [execute_python, hg, he]

/-- The code string of the hello example. -/
def helloCode : String := "print(\"hello\")"

/-- Parameters carrying the hello example as the `code` parameter. -/
def helloParams : Params := fun k => if k = "code" then some helloCode else none

/-- Oracles under which evaluating the hello example writes `"hello\n"` and
returns normally. -/
def helloOracles : Oracles :=
  ⟨fun c => if c = helloCode then ⟨"hello\n", none⟩ else ⟨"", none⟩,
   fun _ => .runs 0 "" ""⟩

/-- C6 witness: code printing hello yields the success envelope with output
`"hello\n"`, evaluated under the module-identity-only namespace. -/
theorem c6_witness :
    execute helloOracles envOn "python" helloParams .dunder =
      (.success "hello\n", .dunder, [.execCode helloCode [(dunderName, dunderMain)]]) :=
  c6_python_eval_capture helloOracles envOn helloParams .dunder "hello\n"
    (by decide) (by decide)

/-- C7: with the gate open, when evaluation of the supplied code raises, the
code-evaluation handler does not raise: the fault's message text becomes the
handler's result string, so dispatch reports a success envelope containing
that text. -/
theorem c7_python_fault_returned_as_text (o : Oracles) (env : Env) (params : Params)
    (s0 : StreamRef) (w m : String) (hg : gateOpen env = true)
    (he : o.pyEval (paramsGetD params "code" "") = ⟨w, some m⟩) :
    execute o env "python" params s0 =
      (.success m, .dunder,
       [.execCode (paramsGetD params "code" "") [(dunderName, dunderMain)]]) := by
  rw [execute_python_eq]
  simp [execute_python, hg, he]

/-- Parameters carrying a division by zero as the `code` parameter. -/
def faultParams : Params := fun k => if k = "code" then some "1/0" else none

/-- Oracles under which every evaluation raises a division-by-zero fault
without writing anything. -/
def faultOracles : Oracles :=
  ⟨fun _ => ⟨"", some "division by zero"⟩, fun _ => .runs 0 "" ""⟩

/-- C7 witness: faulting code yields the success envelope carrying the
fault's message text. -/
theorem c7_witness :
    execute faultOracles envOn "python" faultParams .dunder =
      (.success "division by zero", .dunder,
       [.execCode "1/0" [(dunderName, dunderMain)]]) :=
  c7_python_fault_returned_as_text faultOracles envOn faultParams .dunder ""
    "division by zero" (by decide) (by decide)

/-- C8: with the gate open and the split command naming a process that runs
for `d` time units, execution is bounded by the fixed timeout of 10: if the
process exceeds the bound it is killed (the trace records the kill and the
child's termination, so no child is left running) and dispatch returns the
success envelope carrying the timeout fault's textual description; if it
completes in time dispatch returns the concatenation of its stdout and
stderr; and in either case every spawned child also terminates. -/
theorem c8_shell_timeout_bound (o : Oracles) (env : Env) (params : Params)
    (s0 : StreamRef) (args : List String) (d : Nat) (out err : String)
    (hg : gateOpen env = true)
    (hsp : shlexSplit (paramsGetD params "command" "") = .ok args)
    (hne : args ≠ []) (hp : o.proc args = .runs d out err) :
    (10 < d →
      execute o env "shell" params s0 =
        (.success (timeoutMessage args 10), s0,
         [.spawn args false, .kill args, .exit args])) ∧
    (d ≤ 10 →
      execute o env "shell" params s0 =
        (.success (out ++ err), s0, [.spawn args false, .exit args])) ∧
    (∀ a b, Effect.spawn a b ∈ (execute o env "shell" params s0).2.2 →
      Effect.exit a ∈ (execute o env "shell" params s0).2.2) := by
  have hE := execute_shell_runs o.proc env params args d out err hg hsp hne hp
  rw [execute_shell_eq, hE]
  by_cases hd : d ≤ 10
  · rw [if_pos hd]
    refine ⟨fun hlt => absurd hd (by omega), fun _ => rfl, fun a b hm => ?_⟩
    simp only [List.mem_cons, List.not_mem_nil, or_false] at hm
    rcases hm with h1 | h1
    · obtain ⟨rfl, rfl⟩ := Effect.spawn.inj h1
      simp
    · exact absurd h1 (by simp)
  · rw [if_neg hd]
    refine ⟨fun _ => rfl, fun hle => absurd hle hd, fun a b hm => ?_⟩
    simp only [List.mem_cons, List.not_mem_nil, or_false] at hm
    rcases hm with h1 | h1 | h1
    · obtain ⟨rfl, rfl⟩ := Effect.spawn.inj h1
      simp
    · exact absurd h1 (by simp)
    · exact absurd h1 (by simp)

/-- Parameters carrying a slow command. -/
def sleepParams : Params := fun k => if k = "command" then some "sleep 20" else none

/-- Oracles under which every process runs for 20 time units. -/
def slowOracles : Oracles := ⟨fun _ => ⟨"", none⟩, fun _ => .runs 20 "" ""⟩

/-- C8 witness: a 20-unit process against the 10-unit bound is spawned,
killed and terminated, and dispatch returns the timeout fault's text. -/
theorem c8_witness :
    execute slowOracles envOn "shell" sleepParams .dunder =
      (.success (timeoutMessage ["sleep", "20"] 10), .dunder,
       [.spawn ["sleep", "20"] false, .kill ["sleep", "20"], .exit ["sleep", "20"]]) :=
  (c8_shell_timeout_bound slowOracles envOn sleepParams .dunder ["sleep", "20"]
    20 "" "" (by decide) rfl (by decide) rfl).1 (by omega)

/-- C9: with the gate open and the `command` parameter absent or empty,
shell-word splitting yields the empty argument vector, `Popen`'s resulting
process-creation fault (an `IndexError` raised before any child exists) is
caught inside the handler, and dispatch returns the success envelope whose
output is that fault's message text — not an error envelope, and no effect
occurs. -/
theorem c9_empty_command_caught (o : Oracles) (env : Env) (params : Params)
    (s0 : StreamRef) (hg : gateOpen env = true)
    (hc : paramsGetD params "command" "" = "") :
    execute o env "shell" params s0 = (.success emptyArgvMessage, s0, []) ∧
    shlexSplit "" = .ok [] := by
  refine ⟨?_, rfl⟩
  rw [execute_shell_eq]
  simp only [execute_shell, subprocessRun, hg, Bool.true_eq_false, if_false, hc]
  rfl

/-- C9 witness: with no `command` parameter at all, dispatch returns the
success envelope carrying the empty-argument-vector fault text. -/
theorem c9_witness :
    execute quietOracles envOn "shell" noParams .dunder =
      (.success emptyArgvMessage, .dunder, []) ∧
    shlexSplit "" = .ok [] :=
  c9_empty_command_caught quietOracles envOn noParams .dunder (by decide) rfl

/-- C10: with the gate open, when the evaluated code writes nonempty text and
then faults, the handler's result is exactly the fault's message text — the
partial output written before the fault is discarded, neither prepended nor
appended to it. -/
theorem c10_partial_output_discarded (pyEval : String → PyBehavior) (env : Env)
    (params : Params) (s0 : StreamRef) (w m : String)
    (hg : gateOpen env = true) (hw : w ≠ "")
    (he : pyEval (paramsGetD params "code" "") = ⟨w, some m⟩) :
    (execute_python pyEval env params s0).1 = m ∧
    (execute_python pyEval env params s0).1 ≠ w ++ m ∧
    (execute_python pyEval env params s0).1 ≠ m ++ w := by
  have hwlen : w.data.length ≠ 0 := by
    intro h0
    exact hw (congrArg String.mk (List.length_eq_zero.mp h0))
  have h1 : (execute_python pyEval env params s0).1 = m := by
    simp [execute_python, hg, he]
  refine ⟨h1, ?_, ?_⟩
  · rw [h1]
    intro hEq
    have hdata : m.data = w.data ++ m.data := congrArg String.data hEq
    have hlen := congrArg List.length hdata
    rw [List.length_append] at hlen
    omega
  · rw [h1]
    intro hEq
    have hdata : m.data = m.data ++ w.data := congrArg String.data hEq
    have hlen := congrArg List.length hdata
    rw [List.length_append] at hlen
    omega

/-- Oracles under which every evaluation writes partial output and then
raises. -/
def partialOracles : Oracles :=
  ⟨fun _ => ⟨"partial", some "boom"⟩, fun _ => .runs 0 "" ""⟩

/-- C10 witness: the result is the fault text alone, with the partial output
discarded. -/
theorem c10_witness :
    (execute_python partialOracles.pyEval envOn noParams .dunder).1 = "boom" ∧
    (execute_python partialOracles.pyEval envOn noParams .dunder).1 ≠ "partial" ++ "boom" ∧
    (execute_python partialOracles.pyEval envOn noParams .dunder).1 ≠ "boom" ++ "partial" :=
  c10_partial_output_discarded partialOracles.pyEval envOn noParams .dunder
    "partial" "boom" (by decide) (by decide) rfl

end UAC
